import Mathlib

/-!
Shallow embedding of the plugin host / command-routing core of the
`wechat-tool` repository (files `core/config_manager.py`,
`core/plugin_manager.py`, `core/message_handler.py`), together with
theorems settling the specification claims about it.

Python dicts are modelled as ordered association lists (Python dicts
preserve insertion order, and assignment to an existing key keeps its
position).  Python exceptions are modelled with `Except`/`Option`: a
`try`-block whose body may raise becomes a fallible computation, and the
`except` handler becomes the `.error` branch of a `match`.
-/

namespace WeChatTool

/-- YAML-style configuration values, the values held by
`ConfigManager.config` (`core/config_manager.py`).  A Python `dict` is an
ordered association list; `null` models Python `None`. -/
inductive CVal where
  | null : CVal
  | bool : Bool → CVal
  | int  : Int → CVal
  | str  : String → CVal
  | list : List CVal → CVal
  | dict : List (String × CVal) → CVal
  deriving Repr

/-- Association-list lookup, modelling Python `d[k]` / `d.get(k)` on a
dict (first binding wins; dict keys are unique so this is exact). -/
def lookupA {α : Type} : List (String × α) → String → Option α
  | [], _ => none
  | (k', v) :: rest, k => if k' = k then some v else lookupA rest k

/-- Association-list upsert, modelling Python `d[k] = v`: an existing key
keeps its position, a new key is appended at the end. -/
def upsert {α : Type} : List (String × α) → String → α → List (String × α)
  | [], k, v => [(k, v)]
  | (k', v') :: rest, k, v =>
      if k' = k then (k, v) :: rest else (k', v') :: upsert rest k v

/-- Association-list deletion, modelling Python `del d[k]`. -/
def eraseA {α : Type} (kvs : List (String × α)) (k : String) :
    List (String × α) :=
  kvs.filter (fun kv => kv.1 ≠ k)

/-- Python `s.split('.')` (no maxsplit): the list of dot-separated
segments of the character list; splitting the empty string yields one
empty segment, like Python. -/
def splitDotsL : List Char → List (List Char)
  | [] => [[]]
  | c :: rest =>
      let r := splitDotsL rest
      if c = '.' then [] :: r
      else
        match r with
        | [] => [[c]]
        | g :: gs => (c :: g) :: gs

/-- Embeds `key.split('.')` on a Lean `String`, as used by `ConfigManager.get`
and `ConfigManager.set`. -/
def splitDots (s : String) : List String :=
  (splitDotsL s.data).map (fun cs => String.mk cs)

/-- One step of the lookup loop in `ConfigManager.get`:
`value = value[k]`.  Succeeds only on a dict containing the key;
indexing any other value with a string key raises
(`KeyError`/`TypeError`), modelled as `none`. -/
def getStep : CVal → String → Option CVal
  | CVal.dict kvs, k => lookupA kvs k
  | _, _ => none

/-- The whole `for k in keys: value = value[k]` loop of
`ConfigManager.get`, with the surrounding `try` modelled by `Option`. -/
def getSteps : CVal → List String → Option CVal
  | v, [] => some v
  | v, k :: ks =>
      match getStep v k with
      | some v' => getSteps v' ks
      | none => none

/-- Embeds `ConfigManager.get(key, default)` (config_manager.py lines 83–93):
split the key on dots, walk the tree, return `default` if any step
raises. -/
def cfgGet (cfg : List (String × CVal)) (key : String) (dflt : CVal) :
    CVal :=
  match getSteps (CVal.dict cfg) (splitDots key) with
  | some v => v
  | none => dflt

/-- The walk of `ConfigManager.set` over an already-split key list.
For each intermediate key: insert an empty dict if the key is absent,
then descend; descending into (or finally assigning into) a non-dict
value raises `TypeError`, modelled as `.error ()`.  The final key is
assigned with plain overwrite.  The key list coming from `split('.')` is
never empty, so the `[]` case is unreachable (kept as an error). -/
def setWalk : List (String × CVal) → List String → CVal →
    Except Unit (List (String × CVal))
  | kvs, [k], v => .ok (upsert kvs k v)
  | kvs, k :: ks, v =>
      match lookupA kvs k with
      | some (CVal.dict inner) =>
          (setWalk inner ks v).map (fun inner' => upsert kvs k (CVal.dict inner'))
      | some _ => .error ()
      | none =>
          (setWalk [] ks v).map (fun inner' => upsert kvs k (CVal.dict inner'))
  | _, [], _ => .error ()

/-- Embeds `ConfigManager.set(key, value)` (config_manager.py lines 95–107).
`set` has no `try`: a `TypeError` on a non-dict intermediate propagates
to the caller, hence the `Except` result. -/
def cfgSet (cfg : List (String × CVal)) (key : String) (v : CVal) :
    Except Unit (List (String × CVal)) :=
  setWalk cfg (splitDots key) v

example : splitDots "a.b" = ["a", "b"] := rfl
example : splitDots "" = [""] := rfl
example : cfgSet [] "a.b" (CVal.int 3) =
    .ok [("a", CVal.dict [("b", CVal.int 3)])] := rfl
example : cfgGet [("a", CVal.dict [("b", CVal.int 3)])] "a.b" CVal.null =
    CVal.int 3 := rfl
example : cfgSet [("a", CVal.int 1)] "a.b" (CVal.int 2) = .error () := rfl

/-- Every strict prefix of the path that already resolves in the tree
resolves to a dict: the condition under which `ConfigManager.set` cannot
hit a `TypeError`. -/
def pathClear : List (String × CVal) → List String → Bool
  | _, [] => true
  | _, [_] => true
  | kvs, k :: ks =>
      match lookupA kvs k with
      | none => true
      | some (CVal.dict inner) => pathClear inner ks
      | some _ => false

/-- The path fails to resolve: some step of the lookup loop in `ConfigManager.get`
hits a non-dict value or a missing key (an "unset or partially present"
path, including intermediate type mismatches). -/
inductive PathMissing : CVal → List String → Prop where
  | nonDict (v : CVal) (k : String) (ks : List String) :
      (∀ kvs, v ≠ CVal.dict kvs) → PathMissing v (k :: ks)
  | keyAbsent (kvs : List (String × CVal)) (k : String) (ks : List String) :
      lookupA kvs k = none → PathMissing (CVal.dict kvs) (k :: ks)
  | deeper (kvs : List (String × CVal)) (k : String) (ks : List String)
      (v : CVal) : lookupA kvs k = some v → PathMissing v ks →
      PathMissing (CVal.dict kvs) (k :: ks)

theorem lookupA_upsert {α : Type} (kvs : List (String × α)) (k : String)
    (v : α) : lookupA (upsert kvs k v) k = some v := by
  induction kvs with
  | nil => simp [upsert, lookupA]
  | cons kv rest ih =>
      obtain ⟨k', v'⟩ := kv
      by_cases h : k' = k
      · simp [upsert, h, lookupA]
      · simp [upsert, h, lookupA, ih]

theorem setWalk_getSteps : ∀ (ks : List String)
    (kvs kvs' : List (String × CVal)) (v : CVal),
    setWalk kvs ks v = .ok kvs' → getSteps (CVal.dict kvs') ks = some v
  | [], kvs, kvs', v => by intro h; simp [setWalk] at h
  | [k], kvs, kvs', v => by
      intro h
      simp only [setWalk, Except.ok.injEq] at h
      subst h
      simp [getSteps, getStep, lookupA_upsert]
  | k :: k' :: ks, kvs, kvs', v => by
      intro h
      simp only [setWalk] at h
      cases hl : lookupA kvs k with
      | none =>
          rw [hl] at h
          dsimp only at h
          cases hw : setWalk [] (k' :: ks) v with
          | error e => rw [hw] at h; simp [Except.map] at h
          | ok inner' =>
              rw [hw] at h
              simp only [Except.map, Except.ok.injEq] at h
              subst h
              simp only [getSteps, getStep, lookupA_upsert]
              exact setWalk_getSteps (k' :: ks) [] inner' v hw
      | some c =>
          rw [hl] at h
          cases c with
          | dict inner =>
              dsimp only at h
              cases hw : setWalk inner (k' :: ks) v with
              | error e => rw [hw] at h; simp [Except.map] at h
              | ok inner' =>
                  rw [hw] at h
                  simp only [Except.map, Except.ok.injEq] at h
                  subst h
                  simp only [getSteps, getStep, lookupA_upsert]
                  exact setWalk_getSteps (k' :: ks) inner inner' v hw
          | null => simp at h
          | bool b => simp at h
          | int n => simp at h
          | str s => simp at h
          | list l => simp at h

/-- C5: the set/get round-trip on the config tree.  Whenever
`ConfigManager.set(p, v)` completes without raising, a following
`ConfigManager.get(p, d)` returns exactly `v` — the set overwrote
whatever was there before (last write wins). -/
theorem cfg_set_get_roundtrip (cfg cfg' : List (String × CVal))
    (key : String) (v dflt : CVal) (h : cfgSet cfg key v = .ok cfg') :
    cfgGet cfg' key dflt = v := by
  unfold cfgSet at h
  unfold cfgGet
  rw [setWalk_getSteps (splitDots key) cfg cfg' v h]

/-- Witness for C5 at a concrete input: setting `"a.b" := 3` in the empty
tree and reading `"a.b"` back yields `3`. -/
theorem cfg_set_get_roundtrip_witness :
    cfgGet [("a", CVal.dict [("b", CVal.int 3)])] "a.b" CVal.null =
      CVal.int 3 :=
  cfg_set_get_roundtrip [] [("a", CVal.dict [("b", CVal.int 3)])] "a.b"
    (CVal.int 3) CVal.null rfl

/-- C6 counterexample: `ConfigManager.set` is not total.  From the tree
`{"a": 1}`, `set("a.b", 2)` walks into the non-dict value at `"a"` and
raises `TypeError` (`config = config[k]` then `config["b"] = 2` on an
`int`). -/
theorem cfg_set_type_error :
    cfgSet [("a", CVal.int 1)] "a.b" (CVal.int 2) = .error () := rfl

theorem pathClear_nil : ∀ ks : List String, pathClear [] ks = true
  | [] => rfl
  | [_] => rfl
  | _ :: _ :: _ => rfl

theorem setWalk_ok_of_pathClear : ∀ (ks : List String)
    (kvs : List (String × CVal)) (v : CVal), ks ≠ [] →
    pathClear kvs ks = true → ∃ kvs', setWalk kvs ks v = .ok kvs'
  | [], _, _, hne, _ => absurd rfl hne
  | [k], kvs, v, _, _ => ⟨upsert kvs k v, rfl⟩
  | k :: k' :: ks, kvs, v, _, hclear => by
      simp only [setWalk]
      cases hl : lookupA kvs k with
      | none =>
          obtain ⟨inner', hw⟩ := setWalk_ok_of_pathClear (k' :: ks) [] v
            (by simp) (pathClear_nil _)
          exact ⟨upsert kvs k (CVal.dict inner'), by
            dsimp only; rw [hw]; rfl⟩
      | some c =>
          simp only [pathClear, hl] at hclear
          cases c with
          | dict inner =>
              obtain ⟨inner', hw⟩ := setWalk_ok_of_pathClear (k' :: ks)
                inner v (by simp) hclear
              exact ⟨upsert kvs k (CVal.dict inner'), by
                dsimp only; rw [hw]; rfl⟩
          | null => exact absurd hclear (by simp)
          | bool b => exact absurd hclear (by simp)
          | int n => exact absurd hclear (by simp)
          | str s => exact absurd hclear (by simp)
          | list l => exact absurd hclear (by simp)

theorem splitDotsL_ne_nil : ∀ cs : List Char, splitDotsL cs ≠ []
  | [] => by simp [splitDotsL]
  | c :: rest => by
      simp only [splitDotsL]
      by_cases h : c = '.'
      · simp [h]
      · simp only [h, if_false]
        cases splitDotsL rest with
        | nil => simp
        | cons g gs => simp

theorem splitDots_ne_nil (s : String) : splitDots s ≠ [] := by
  unfold splitDots
  intro h
  exact splitDotsL_ne_nil s.data (List.map_eq_nil_iff.mp h)

/-- C6 (amended): `ConfigManager.set(path, value)` succeeds — creating
intermediate dict nodes on demand for every missing segment — from every
tree state in which no strict prefix of the path already resolves to a
non-dict value.  (The unamended "from every state" claim is refuted by
`cfg_set_type_error`.) -/
theorem cfg_set_total_on_clear_paths (cfg : List (String × CVal))
    (key : String) (v : CVal) (h : pathClear cfg (splitDots key) = true) :
    ∃ cfg', cfgSet cfg key v = .ok cfg' :=
  setWalk_ok_of_pathClear (splitDots key) cfg v (splitDots_ne_nil key) h

/-- Witness for the amended C6 at a concrete input: in the empty tree the
path `"x.y"` is clear, and `set("x.y", 1)` succeeds. -/
theorem cfg_set_total_on_clear_paths_witness :
    ∃ cfg', cfgSet [] "x.y" (CVal.int 1) = .ok cfg' :=
  cfg_set_total_on_clear_paths [] "x.y" (CVal.int 1) rfl

theorem getSteps_eq_none_of_pathMissing {v : CVal} {ks : List String}
    (h : PathMissing v ks) : getSteps v ks = none := by
  induction h with
  | nonDict v k ks hnd =>
      cases v with
      | dict kvs => exact absurd rfl (hnd kvs)
      | null => rfl
      | bool b => rfl
      | int n => rfl
      | str s => rfl
      | list l => rfl
  | keyAbsent kvs k ks hl => simp [getSteps, getStep, hl]
  | deeper kvs k ks v hl _ ih => simp [getSteps, getStep, hl, ih]

/-- C7: `ConfigManager.get(path, default)` on an unset or only partially
present path — including an intermediate segment resolving to a non-dict
value — returns the caller-supplied default (the `KeyError`/`TypeError`
is caught inside `get`; the function is total). -/
theorem cfg_get_default_on_missing (cfg : List (String × CVal))
    (key : String) (dflt : CVal)
    (h : PathMissing (CVal.dict cfg) (splitDots key)) :
    cfgGet cfg key dflt = dflt := by
  unfold cfgGet
  rw [getSteps_eq_none_of_pathMissing h]

/-- Witness for C7 at a concrete input with a type mismatch: in
`{"a": 1}` the path `"a.b"` walks into the `int` at `"a"`, and `get`
returns the default. -/
theorem cfg_get_default_on_missing_witness :
    cfgGet [("a", CVal.int 1)] "a.b" (CVal.str "dflt") = CVal.str "dflt" :=
  cfg_get_default_on_missing [("a", CVal.int 1)] "a.b" (CVal.str "dflt")
    (PathMissing.deeper _ "a" ["b"] (CVal.int 1) rfl
      (PathMissing.nonDict _ "b" [] (by intro kvs h; cases h)))

/-!
## PluginManager (`core/plugin_manager.py`)

A plugin instance is modelled by the fields the registry observes plus
the behaviour of its three entry points: whether `start()` / `stop()`
return normally or raise, and what `execute_command(command, user_id)`
does (raise, return `None`, or return a string).
-/

/-- A live plugin object (`core/base_plugin.py` attributes plus the
behaviour of its methods).  `exec` models
`execute_command(command, user_id)`: `.error ()` is a raised exception,
`.ok none` is a returned `None`, `.ok (some s)` a returned string. -/
structure Plugin where
  name : String
  version : String
  description : String
  is_running : Bool
  startOk : Bool
  stopOk : Bool
  exec : String → String → Except Unit (Option String)

/-- Embeds `plugin.start()`: raises iff `startOk` is false; on success the
concrete plugins set `is_running = True`. -/
def startPlugin (p : Plugin) : Except Unit Plugin :=
  if p.startOk then .ok { p with is_running := true } else .error ()

/-- Embeds `plugin.stop()`: raises iff `stopOk` is false; on success the
concrete plugins set `is_running = False`. -/
def stopPlugin (p : Plugin) : Except Unit Plugin :=
  if p.stopOk then .ok { p with is_running := false } else .error ()

/-- The mutable state of `PluginManager`: `self.plugins` and
`self.plugin_modules`, both ordered dicts keyed by plugin name (module
objects are modelled by an opaque string tag). -/
structure PMState where
  plugins : List (String × Plugin)
  plugin_modules : List (String × String)

/-- What the plugin-source environment (file system + `importlib` +
`inspect` class scan + constructor) yields for a given plugin name in
`load_plugin`; everything up to the registration lines. -/
inductive LoadOutcome where
  | noFile
  | importError
  | noClass
  | initError
  | ok (p : Plugin) (modTag : String)

/-- Embeds `PluginManager.load_plugin` (plugin_manager.py lines 40–80).  All
failure exits (`os.path.exists` false, `exec_module` raising, no
concrete `BasePlugin` subclass found, constructor raising — the last two
via the enclosing `except`) return `None` before the two registration
assignments run; success upserts into both dicts and returns the
instance. -/
def load_plugin (env : String → LoadOutcome) (st : PMState)
    (plugin_name : String) : PMState × Option Plugin :=
  match env plugin_name with
  | .noFile => (st, none)
  | .importError => (st, none)
  | .noClass => (st, none)
  | .initError => (st, none)
  | .ok p m =>
      ({ plugins := upsert st.plugins plugin_name p,
         plugin_modules := upsert st.plugin_modules plugin_name m },
       some p)

/-- Embeds `PluginManager.unload_plugin` (plugin_manager.py lines 82–101).
If the name is present the code runs `plugin.stop()` and only then the
two `del` statements; a raise in `stop()` jumps to the `except`, which
returns `False` with the `del`s never executed.  An absent name returns
`False`. -/
def unload_plugin (st : PMState) (plugin_name : String) : PMState × Bool :=
  match lookupA st.plugins plugin_name with
  | some p =>
      match stopPlugin p with
      | .ok _ =>
          ({ plugins := eraseA st.plugins plugin_name,
             plugin_modules := eraseA st.plugin_modules plugin_name },
           true)
      | .error _ => (st, false)
  | none => (st, false)

/-- The raw `plugins.enabled` config value read by `load_plugins` /
`reload_plugins` / `get_status`, projected to the list of names it
holds (the config stores it as a YAML list of strings). -/
def enabledNames (cfg : List (String × CVal)) : List String :=
  match cfgGet cfg "plugins.enabled" (CVal.list []) with
  | CVal.list vs =>
      vs.filterMap (fun v =>
        match v with
        | CVal.str s => some s
        | _ => none)
  | _ => []

/-- Embeds `PluginManager.reload_plugins` (plugin_manager.py lines 116–131):
read the `plugins.enabled` snapshot, call `unload_plugin` on every key
of the current `plugins` dict (a snapshot of the keys), then call
`load_plugin` on each enabled name in order. -/
def reload_plugins (env : String → LoadOutcome)
    (cfg : List (String × CVal)) (st : PMState) : PMState :=
  let enabled := enabledNames cfg
  let st1 := (st.plugins.map Prod.fst).foldl
    (fun s n => (unload_plugin s n).1) st
  enabled.foldl (fun s n => (load_plugin env s n).1) st1

/-- One iteration of the `start_plugins`/`stop_plugins` loop:
`try: <call>() except: log and continue`.  The accumulator carries the
updated plugin entries and, second, the names on which the call was
invoked; a raise (`.error`) leaves the entry as it was but the iteration
still happened and the loop proceeds. -/
def lifecycleStep (f : Plugin → Except Unit Plugin)
    (acc : List (String × Plugin) × List String) (kv : String × Plugin) :
    List (String × Plugin) × List String :=
  match f kv.2 with
  | .ok p' => (acc.1 ++ [(kv.1, p')], acc.2 ++ [kv.1])
  | .error _ => (acc.1 ++ [kv], acc.2 ++ [kv.1])

/-- Embeds `PluginManager.start_plugins` (plugin_manager.py lines 133–140): a
loop over `self.plugins.items()` whose body is `try: plugin.start()
except: log` — a raise is swallowed per iteration, so the loop continues
and the method itself never raises.  The second component records, in
order, the names of the plugins whose `start()` was invoked. -/
def start_plugins (st : PMState) : PMState × List String :=
  let r := st.plugins.foldl (lifecycleStep startPlugin) ([], [])
  ({ st with plugins := r.1 }, r.2)

/-- Embeds `PluginManager.stop_plugins` (plugin_manager.py lines 142–149): same
shape as `start_plugins` with `plugin.stop()` in the per-iteration
`try`. -/
def stop_plugins (st : PMState) : PMState × List String :=
  let r := st.plugins.foldl (lifecycleStep stopPlugin) ([], [])
  ({ st with plugins := r.1 }, r.2)

/-- One entry of `status["plugin_details"]` in
`PluginManager.get_status`. -/
structure PluginDetail where
  name : String
  version : String
  description : String
  is_running : Bool

/-- The dict returned by `PluginManager.get_status` (plugin_manager.py
lines 159–176). -/
structure PMStatus where
  total_plugins : Nat
  enabled_plugins : CVal
  loaded_plugins : List String
  plugin_details : List (String × PluginDetail)

/-- Embeds `PluginManager.get_status`. -/
def get_status (cfg : List (String × CVal)) (st : PMState) : PMStatus :=
  { total_plugins := st.plugins.length
    enabled_plugins := cfgGet cfg "plugins.enabled" (CVal.list [])
    loaded_plugins := st.plugins.map Prod.fst
    plugin_details := st.plugins.map (fun kv =>
      (kv.1,
       { name := kv.2.name, version := kv.2.version,
         description := kv.2.description, is_running := kv.2.is_running })) }

/-- Embeds `PluginManager.get_plugin`. -/
def get_plugin (st : PMState) (plugin_name : String) : Option Plugin :=
  lookupA st.plugins plugin_name

/-- Embeds `PluginManager.execute_plugin_command` (plugin_manager.py lines
178–187).  Raises `ValueError` if the name is absent; otherwise calls
`plugin.execute_command` (the `hasattr` guard is always true since
`BasePlugin` defines the method), whose own exceptions propagate.  This
method has no caller anywhere in the repository; the live dispatch path
is `MessageHandler._handle_plugin_command` below. -/
def execute_plugin_command (st : PMState) (plugin_name command user :
    String) : Except Unit (Option String) :=
  match get_plugin st plugin_name with
  | none => .error ()
  | some p => p.exec command user

/-!
## MessageHandler (`core/message_handler.py`)

Only the text-message path is claimed, so only
`handle_text_message` and its callees are embedded.  `random.choice` in
`_get_default_response` is modelled by an explicit index parameter
reduced mod 4.
-/

/-- Python `str.isspace` on the characters `str.strip()` removes (ASCII
whitespace; the messages of this repository contain no exotic Unicode whitespace). -/
def isPySpace (c : Char) : Bool :=
  c = ' ' || c = '\t' || c = '\n' || c = '\r' || c = '\x0b' || c = '\x0c'

/-- Python `s.strip()` on a character list. -/
def pyStripL (cs : List Char) : List Char :=
  ((cs.dropWhile isPySpace).reverse.dropWhile isPySpace).reverse

/-- Python `s.strip()`. -/
def pyStrip (s : String) : String := String.mk (pyStripL s.data)

/-- Python `s.lower()` (character-wise; the patterns involved are plain
ASCII). -/
def pyLower (s : String) : String := String.mk (s.data.map Char.toLower)

/-- Embeds `re.match(r"^帮助$|^help$", content, re.IGNORECASE)` on the already
stripped content: a whole-string match of either alternative,
case-insensitively. -/
def matchHelpPat (c : String) : Bool := c = "帮助" || pyLower c = "help"

/-- Embeds `re.match(r"^状态$|^status$", content, re.IGNORECASE)`. -/
def matchStatusPat (c : String) : Bool := c = "状态" || pyLower c = "status"

/-- Embeds `re.match(r"^插件$|^plugins$", content, re.IGNORECASE)`. -/
def matchPluginsPat (c : String) : Bool := c = "插件" || pyLower c = "plugins"

/-- Embeds `re.match(r"^重载$|^reload$", content, re.IGNORECASE)`. -/
def matchReloadPat (c : String) : Bool := c = "重载" || pyLower c = "reload"

/-- Python `s.split(' ', 1)` on a character list: the part before the
first space, and — when a space occurs — the verbatim remainder. -/
def splitSpace1 : List Char → List Char × Option (List Char)
  | [] => ([], none)
  | c :: rest =>
      if c = ' ' then ([], some rest)
      else
        let r := splitSpace1 rest
        (c :: r.1, r.2)

/-- The argument string handed to the plugin:
`parts[1] if len(parts) > 1 else ""`. -/
def argString : Option (List Char) → String
  | some a => String.mk a
  | none => ""

/-- An inbound text-message event: the `FromUserName` and `Text` fields
read by `handle_text_message`. -/
structure Msg where
  fromUser : String
  text : String

/-- The context `handle_text_message` runs in: the `ConfigManager` of
the handler and the `plugin_manager` attribute, which
`_get_plugin_manager` reads via getattr with default `None` and which
may therefore be unset. -/
structure MHState where
  cfg : List (String × CVal)
  pm : Option PMState

/-- Embeds `MessageHandler._handle_plugin_command` (message_handler.py lines
202–224).  Parses `/<name>[ <rest>]`; a missing plugin yields the
user-facing not-found string; a raise inside `plugin.execute_command`
is caught by the except handler of the method, which returns `None`.  Text not
starting with `/` yields `None`. -/
def handle_plugin_command (st : MHState) (content user : String) :
    Option String :=
  match content.data with
  | c :: rest =>
      if c = '/' then
        let parts := splitSpace1 rest
        let plugin_name := String.mk parts.1
        let command := argString parts.2
        match st.pm with
        | some pmst =>
            match get_plugin pmst plugin_name with
            | some p =>
                match p.exec command user with
                | .ok r => r
                | .error _ => none
            | none =>
                some ("插件 \x27" ++ plugin_name ++ "\x27 不存在或未加载。")
        | none => none
      else none
  | [] => none

/-- The four fixed strings of `MessageHandler._get_default_response`. -/
def default_responses : List String :=
  ["有什么可以帮助您的吗？",
   "请发送文件或输入命令，我会为您处理！",
   "输入 \x27帮助\x27 查看所有可用功能。",
   "我是您的智能助手，随时为您服务！"]

/-- Embeds `MessageHandler._get_default_response`: `random.choice` over the
four responses, modelled by an explicit random index. -/
def get_default_response (rand : Nat) : String :=
  default_responses.getD (rand % 4) ""

/-- The triple-quoted help text of `MessageHandler._handle_help`, before
the `.strip()` (leading newline and trailing indentation included). -/
def help_text_raw : String :=
  "\n🤖 微信工具机器人帮助\n\n📋 可用命令：\n• 帮助/help - 显示此帮助信息\n• 状态/status - 查看机器人状态\n• 插件/plugins - 查看已安装插件\n• 重载/reload - 重新加载插件\n\n📁 文件处理：\n• 发送Word文档 → 自动转换为PDF\n• 发送图片文件 → 自动转换为PDF\n• 发送PDF文件 → 自动转换为Word\n\n⏰ 定时功能：\n• 设置定时提醒\n• 定时发送消息\n\n📰 新闻推送：\n• 订阅每日金融新闻\n• 获取热门投资资讯\n\n💡 提示：直接发送文件即可使用文件转换功能！\n        "

/-- Embeds `MessageHandler._handle_help`. -/
def handle_help : String := pyStrip help_text_raw

/-- Embeds `MessageHandler._is_bot_running` (hard-coded `True`). -/
def is_bot_running : Bool := true

/-- The required keys checked by `ConfigManager.validate`. -/
def required_keys : List String :=
  ["wechat.login_timeout", "file_processing.upload_dir",
   "file_processing.output_dir", "logging.level", "database.path"]

/-- Python `v is None` on a config value. -/
def isNullC : CVal → Bool
  | CVal.null => true
  | _ => false

/-- Embeds `ConfigManager.validate`: every required key must resolve to a
non-`None` value (`self.get(key) is None` fails both on a missing path
and on a stored `None`). -/
def cfgValidate (cfg : List (String × CVal)) : Bool :=
  required_keys.all (fun k => !isNullC (cfgGet cfg k CVal.null))

/-- Embeds `MessageHandler._handle_status` (message_handler.py lines 141–165):
formats the registry status snapshot, or reports unavailability when
`plugin_manager` is unset; the f-string is rendered then `.strip()`ed. -/
def handle_status (st : MHState) : String :=
  match st.pm with
  | some pmst =>
      let status := get_status st.cfg pmst
      pyStrip ("\n🤖 机器人状态\n\n📊 插件统计：\n• 总插件数: "
        ++ toString status.total_plugins
        ++ "\n• 已加载: "
        ++ String.intercalate ", " status.loaded_plugins
        ++ "\n\n🔧 系统状态：\n• 运行状态: "
        ++ (if is_bot_running then "运行中" else "已停止")
        ++ "\n• 配置状态: "
        ++ (if cfgValidate st.cfg then "正常" else "异常")
        ++ "\n                ")
  | none => "无法获取状态信息。"

/-- Embeds `MessageHandler._handle_plugins` (message_handler.py lines 167–186):
a header plus one block per `plugin_details` entry, then `.strip()`. -/
def handle_plugins (st : MHState) : String :=
  match st.pm with
  | some pmst =>
      let status := get_status st.cfg pmst
      pyStrip ("📦 已安装插件：\n\n"
        ++ String.join (status.plugin_details.map (fun nd =>
            (if nd.2.is_running then "🟢" else "🔴")
            ++ " " ++ nd.2.name ++ " v" ++ nd.2.version
            ++ "\n   描述: " ++ nd.2.description ++ "\n\n")))
  | none => "无法获取插件信息。"

/-- Embeds `MessageHandler._handle_reload` (message_handler.py lines 188–200):
runs `plugin_manager.reload_plugins()` (a state change) and reports. -/
def handle_reload (env : String → LoadOutcome) (st : MHState) :
    String × MHState :=
  match st.pm with
  | some pmst =>
      ("✅ 插件重新加载完成！",
       { st with pm := some (reload_plugins env st.cfg pmst) })
  | none => ("无法重新加载插件。", st)

/-- Truthiness of the `Optional[str]` returned by
`_handle_plugin_command`, as tested by `if plugin_response:`. -/
def truthyOpt : Option String → Bool
  | none => false
  | some s => s ≠ ""

/-- Embeds `MessageHandler.handle_text_message` (message_handler.py lines
28–51): strip the text, try the four system-command patterns in dict
order (first match wins), then the plugin-command path, then a default
response for a falsy plugin response.  In this model no step of the
body can raise (the `msg` fields are total), so the outer `except`
returning "抱歉，处理消息时出现错误。" is unreachable. -/
def handle_text_message (env : String → LoadOutcome) (st : MHState)
    (msg : Msg) (rand : Nat) : String × MHState :=
  let content := pyStrip msg.text
  if matchHelpPat content then (handle_help, st)
  else if matchStatusPat content then (handle_status st, st)
  else if matchPluginsPat content then (handle_plugins st, st)
  else if matchReloadPat content then handle_reload env st
  else
    let plugin_response := handle_plugin_command st content msg.fromUser
    if truthyOpt plugin_response then (plugin_response.getD "", st)
    else (get_default_response rand, st)

/-! ## Helper lemmas and concrete fixtures -/

theorem lookupA_mem {α : Type} (kvs : List (String × α)) :
    ∀ (k : String) (v : α), lookupA kvs k = some v → (k, v) ∈ kvs := by
  induction kvs with
  | nil => intro k v h; simp [lookupA] at h
  | cons kv rest ih =>
      intro k v h
      obtain ⟨k', v'⟩ := kv
      by_cases hk : k' = k
      · subst hk
        simp [lookupA] at h
        subst h
        exact List.mem_cons_self _ _
      · simp only [lookupA, if_neg hk] at h
        exact List.mem_cons_of_mem _ (ih k v h)

theorem lookupA_none {α : Type} (kvs : List (String × α)) :
    ∀ k : String, lookupA kvs k = none → ∀ kv ∈ kvs, kv.1 ≠ k := by
  induction kvs with
  | nil => intro k _ kv hm; cases hm
  | cons kv0 rest ih =>
      intro k h kv hm
      obtain ⟨k', v'⟩ := kv0
      by_cases hk : k' = k
      · subst hk
        simp [lookupA] at h
      · simp only [lookupA, if_neg hk] at h
        rcases List.mem_cons.mp hm with he | hm'
        · subst he; exact hk
        · exact ih k h kv hm'

/-- A plugin whose `stop()` raises (used as a registry inhabitant in the
counterexamples). -/
def pluginX : Plugin :=
  { name := "x", version := "1.0.0", description := "d",
    is_running := true, startOk := true, stopOk := false,
    exec := fun _ _ => .error () }

/-- A well-behaved plugin whose `stop()` returns normally. -/
def pluginY : Plugin :=
  { name := "y", version := "1.0.0", description := "d",
    is_running := true, startOk := true, stopOk := true,
    exec := fun _ _ => .ok (some "ok") }

/-- A registry holding only `pluginX` (failing `stop`). -/
def stStale : PMState :=
  { plugins := [("x", pluginX)], plugin_modules := [("x", "x")] }

/-- A registry holding only `pluginY` (clean `stop`). -/
def stGood : PMState :=
  { plugins := [("y", pluginY)], plugin_modules := [("y", "y")] }

/-! ## C3 — unload semantics -/

/-- C3 counterexample: with `stop()` raising, `unload_plugin` does NOT
remove the entry — the `except` fires before the `del` statements run,
so the call reports failure and `"x"` is still registered. -/
theorem unload_keeps_entry_on_stop_failure :
    (unload_plugin stStale "x").2 = false ∧
    lookupA (unload_plugin stStale "x").1.plugins "x" = some pluginX :=
  ⟨rfl, rfl⟩

/-- C3 (amended): `unload_plugin` removes the entry from both registry
maps and reports success exactly when the name is present and its
`stop()` returns normally; when `stop()` raises, the failure is caught,
the call reports failure, and the registry is left unchanged; unloading
an absent name reports failure and leaves the registry unchanged. -/
theorem unload_plugin_spec (st : PMState) (name : String) :
    (∀ p, lookupA st.plugins name = some p → p.stopOk = true →
      unload_plugin st name =
        ({ plugins := eraseA st.plugins name,
           plugin_modules := eraseA st.plugin_modules name }, true)) ∧
    (∀ p, lookupA st.plugins name = some p → p.stopOk = false →
      unload_plugin st name = (st, false)) ∧
    (lookupA st.plugins name = none →
      unload_plugin st name = (st, false)) := by
  refine ⟨?_, ?_, ?_⟩
  · intro p hl hs
    simp [unload_plugin, hl, stopPlugin, hs]
  · intro p hl hs
    simp [unload_plugin, hl, stopPlugin, hs]
  · intro hl
    simp [unload_plugin, hl]

/-- Witness for the amended C3 at concrete inputs: a present plugin with
a clean `stop()` is removed with success; an absent name fails and
leaves the registry unchanged. -/
theorem unload_plugin_spec_witness :
    unload_plugin stGood "y" =
      ({ plugins := eraseA stGood.plugins "y",
         plugin_modules := eraseA stGood.plugin_modules "y" }, true) ∧
    unload_plugin stGood "z" = (stGood, false) :=
  ⟨(unload_plugin_spec stGood "y").1 pluginY rfl rfl,
   (unload_plugin_spec stGood "z").2.2 rfl⟩

/-! ## C4 — failed load leaves the registry unchanged -/

/-- C4: whenever `load_plugin` fails (missing source file, import error,
no concrete `BasePlugin` subclass, constructor raising — i.e. it returns
`None`), the visible registry state (`plugins` and `plugin_modules`)
is exactly what it was before the call: both registration assignments
come after every failure exit. -/
theorem load_failure_leaves_registry (env : String → LoadOutcome)
    (st : PMState) (name : String)
    (h : (load_plugin env st name).2 = none) :
    (load_plugin env st name).1 = st := by
  cases henv : env name <;> simp [load_plugin, henv] at h ⊢

/-- Witness for C4 at a concrete input: loading a name with no source
file fails and leaves the registry exactly as it was. -/
theorem load_failure_leaves_registry_witness :
    (load_plugin (fun _ => LoadOutcome.noFile) stGood "foo").2 = none ∧
    (load_plugin (fun _ => LoadOutcome.noFile) stGood "foo").1 = stGood :=
  ⟨rfl, load_failure_leaves_registry (fun _ => LoadOutcome.noFile)
    stGood "foo" rfl⟩

/-! ## C9 — start/stop fault isolation -/

theorem foldl_lifecycleStep_invoked (f : Plugin → Except Unit Plugin) :
    ∀ (l : List (String × Plugin))
      (acc : List (String × Plugin) × List String),
    (l.foldl (lifecycleStep f) acc).2 = acc.2 ++ l.map Prod.fst
  | [], acc => by simp
  | kv :: t, acc => by
      rw [List.foldl_cons]
      have hstep : (lifecycleStep f acc kv).2 = acc.2 ++ [kv.1] := by
        unfold lifecycleStep
        cases f kv.2 <;> rfl
      rw [foldl_lifecycleStep_invoked f t (lifecycleStep f acc kv), hstep]
      simp

/-- C9: during `start_plugins` and `stop_plugins`, `start()`/`stop()` is
invoked on every registered plugin in registry order, whatever each
individual call does — a raise is caught inside the loop body, so a
failure of a single plugin aborts neither the iteration nor the method
(both are total; nothing propagates to the caller). -/
theorem lifecycle_iteration_fault_isolation (st : PMState) :
    (start_plugins st).2 = st.plugins.map Prod.fst ∧
    (stop_plugins st).2 = st.plugins.map Prod.fst := by
  constructor
  · show (st.plugins.foldl (lifecycleStep startPlugin) ([], [])).2 = _
    rw [foldl_lifecycleStep_invoked startPlugin st.plugins ([], [])]
    rfl
  · show (st.plugins.foldl (lifecycleStep stopPlugin) ([], [])).2 = _
    rw [foldl_lifecycleStep_invoked stopPlugin st.plugins ([], [])]
    rfl

/-! ## C8 — reloadAll -/

/-- Every plugin entry surviving one `unload_plugin` call was already in
the registry (the call either leaves `plugins` unchanged or filters
it). -/
theorem unload_plugin_mem (st : PMState) (n : String) :
    ∀ kv ∈ (unload_plugin st n).1.plugins, kv ∈ st.plugins := by
  intro kv hm
  unfold unload_plugin at hm
  cases hl : lookupA st.plugins n with
  | none => rw [hl] at hm; exact hm
  | some p =>
      rw [hl] at hm
      dsimp only at hm
      cases hsp : stopPlugin p with
      | ok p' =>
          rw [hsp] at hm
          exact List.mem_of_mem_filter hm
      | error e => rw [hsp] at hm; exact hm

/-- Unloading, in any order, a set of names covering every registered
plugin empties the `plugins` dict — provided that `stop()` returns normally for every registered plugin. -/
theorem unload_fold_clears :
    ∀ (names : List String) (s : PMState),
    (∀ kv ∈ s.plugins, kv.2.stopOk = true) →
    (∀ kv ∈ s.plugins, kv.1 ∈ names) →
    ((names.foldl (fun s n => (unload_plugin s n).1) s).plugins) = []
  | [], s, _, hcov => by
      cases hp : s.plugins with
      | nil => simpa using hp
      | cons kv t =>
          exact absurd (hcov kv (by rw [hp]; exact List.mem_cons_self _ _))
            (List.not_mem_nil _)
  | n :: ns, s, hstop, hcov => by
      rw [List.foldl_cons]
      refine unload_fold_clears ns ((unload_plugin s n).1) ?_ ?_
      · intro kv hm
        exact hstop kv (unload_plugin_mem s n kv hm)
      · intro kv hm
        have hmem : kv ∈ s.plugins := unload_plugin_mem s n kv hm
        have hcons : kv.1 ∈ n :: ns := hcov kv hmem
        rcases List.mem_cons.mp hcons with he | h
        · exfalso
          unfold unload_plugin at hm
          cases hl : lookupA s.plugins n with
          | none =>
              rw [hl] at hm
              exact lookupA_none s.plugins n hl kv hmem he
          | some p =>
              have hp : p.stopOk = true :=
                hstop (n, p) (lookupA_mem s.plugins n p hl)
              rw [hl] at hm
              dsimp only at hm
              rw [show stopPlugin p = .ok { p with is_running := false }
                from by simp [stopPlugin, hp]] at hm
              have := (List.mem_filter.mp hm).2
              simp [he] at this
        · exact h

/-- The `plugins.enabled` configuration used in the C8 scenario. -/
def cfgHS : List (String × CVal) :=
  [("plugins", CVal.dict
    [("enabled", CVal.list [CVal.str "help", CVal.str "scheduler"])])]

/-- A loadable help plugin. -/
def pluginHelp : Plugin :=
  { name := "HelpPlugin", version := "1.0.0", description := "help",
    is_running := false, startOk := true, stopOk := true,
    exec := fun _ _ => .ok (some "帮助") }

/-- A loadable scheduler plugin. -/
def pluginSched : Plugin :=
  { name := "SchedulerPlugin", version := "1.0.0",
    description := "scheduler", is_running := false, startOk := true,
    stopOk := true, exec := fun _ _ => .ok (some "已定时") }

/-- A plugin-source environment in which loading `"help"` and
`"scheduler"` both succeed. -/
def envHS : String → LoadOutcome := fun n =>
  if n = "help" then .ok pluginHelp "help"
  else if n = "scheduler" then .ok pluginSched "scheduler"
  else .noFile

/-- C8 counterexample: from a registry that already holds a plugin
`"x"` whose `stop()` raises, `reload_plugins` with enabled-set
`["help","scheduler"]` and both loads succeeding leaves
`loaded_plugins = ["x","help","scheduler"]` — not exactly
`["help","scheduler"]` — because the failed unload keeps `"x"`
registered. -/
theorem reload_all_counterexample :
    (get_status cfgHS (reload_plugins envHS cfgHS stStale)).loaded_plugins
      ≠ ["help", "scheduler"] := by
  intro h
  have hval : (get_status cfgHS
      (reload_plugins envHS cfgHS stStale)).loaded_plugins =
      ["x", "help", "scheduler"] := rfl
  rw [hval] at h
  injection h with h1 _
  exact absurd h1 (by decide)

/-- C8 (amended): if the configured enabled-set is
`["help","scheduler"]`, both loads succeed, and additionally every
previously registered plugin has a `stop()` that returns normally (so each
unload really removes its entry), then after `reload_plugins` the
`loaded_plugins` field of the status snapshot is exactly `["help","scheduler"]` in
that order, each name once: reloadAll snapshots the enabled-set,
unloads every current plugin, then loads each enabled name in order. -/
theorem reload_all_loads_enabled_in_order
    (env : String → LoadOutcome) (cfg : List (String × CVal))
    (st : PMState) (pH pS : Plugin) (mH mS : String)
    (hen : enabledNames cfg = ["help", "scheduler"])
    (hH : env "help" = .ok pH mH)
    (hS : env "scheduler" = .ok pS mS)
    (hstop : ∀ kv ∈ st.plugins, kv.2.stopOk = true) :
    (get_status cfg (reload_plugins env cfg st)).loaded_plugins =
      ["help", "scheduler"] := by
  have hclear := unload_fold_clears (st.plugins.map Prod.fst) st hstop
    (fun kv hm => List.mem_map_of_mem Prod.fst hm)
  simp only [reload_plugins]
  rw [hen]
  simp only [List.foldl_cons, List.foldl_nil]
  have h3 : ((load_plugin env (load_plugin env
      ((st.plugins.map Prod.fst).foldl (fun s n => (unload_plugin s n).1)
        st) "help").1 "scheduler").1).plugins =
      [("help", pH), ("scheduler", pS)] := by
    simp [load_plugin, hH, hS, hclear, upsert,
      (by decide : ¬ (("help" : String) = "scheduler"))]
  simp [get_status, h3]

/-- Witness for the amended C8 at concrete inputs: a registry holding
one cleanly stopping plugin, the enabled-set of the scenario, and an
environment in which both loads succeed. -/
theorem reload_all_loads_enabled_in_order_witness :
    (get_status cfgHS (reload_plugins envHS cfgHS stGood)).loaded_plugins
      = ["help", "scheduler"] :=
  reload_all_loads_enabled_in_order envHS cfgHS stGood pluginHelp
    pluginSched "help" "scheduler" rfl rfl rfl
    (by intro kv hm
        simp only [stGood, List.mem_singleton] at hm
        subst hm
        rfl)

/-! ## Router helper lemmas -/

theorem mem_dropWhile_of_not {α : Type} (p : α → Bool) (x : α)
    (hp : p x = false) : ∀ l : List α, x ∈ l → x ∈ l.dropWhile p
  | [], hm => absurd hm (List.not_mem_nil x)
  | a :: t, hm => by
      rw [List.dropWhile_cons]
      by_cases ha : p a = true
      · rw [if_pos ha]
        rcases List.mem_cons.mp hm with he | h
        · subst he; rw [hp] at ha; cases ha
        · exact mem_dropWhile_of_not p x hp t h
      · rw [if_neg ha]
        exact hm

/-- A string containing at least one character that `strip()` does not
remove survives `strip()` non-empty. -/
theorem pyStrip_ne_empty (s : String) (c : Char) (hm : c ∈ s.data)
    (hc : isPySpace c = false) : pyStrip s ≠ "" := by
  intro h
  have hdata : pyStripL s.data = [] := by
    have := congrArg String.data h
    simpa [pyStrip] using this
  unfold pyStripL at hdata
  rw [List.reverse_eq_nil_iff] at hdata
  have hall := List.dropWhile_eq_nil_iff.mp hdata
  have h1 : c ∈ s.data.dropWhile isPySpace :=
    mem_dropWhile_of_not _ _ hc _ hm
  have h2 := hall c (List.mem_reverse.mpr h1)
  rw [hc] at h2
  cases h2

theorem ne_empty_of_mem_data (s : String) (c : Char) (h : c ∈ s.data) :
    s ≠ "" := by
  intro he
  rw [he] at h
  simp at h

theorem mem_data_append_left (a b : String) (c : Char)
    (h : c ∈ a.data) : c ∈ (a ++ b).data := by
  rw [String.data_append]
  exact List.mem_append_left _ h

theorem get_default_response_mem (rand : Nat) :
    get_default_response rand ∈ default_responses := by
  have h : rand % 4 = 0 ∨ rand % 4 = 1 ∨ rand % 4 = 2 ∨ rand % 4 = 3 := by
    omega
  unfold get_default_response
  rcases h with h | h | h | h <;> rw [h] <;> decide

theorem get_default_response_ne_empty (rand : Nat) :
    get_default_response rand ≠ "" := by
  have h : rand % 4 = 0 ∨ rand % 4 = 1 ∨ rand % 4 = 2 ∨ rand % 4 = 3 := by
    omega
  unfold get_default_response
  rcases h with h | h | h | h <;> rw [h] <;> decide

/-- Text that (after stripping) starts with the plugin prefix `/` cannot
match any of the four anchored system-command patterns. -/
theorem matchPats_false_of_slash (c : String) (rest : List Char)
    (h : c.data = '/' :: rest) :
    matchHelpPat c = false ∧ matchStatusPat c = false ∧
    matchPluginsPat c = false ∧ matchReloadPat c = false := by
  have hlow : (pyLower c).data = '/' :: rest.map Char.toLower := by
    simp only [pyLower]
    rw [h, List.map_cons, show '/'.toLower = '/' from by decide]
  have hslash : c.data.head? = some '/' := by rw [h]; rfl
  have hlowslash : (pyLower c).data.head? = some '/' := by rw [hlow]; rfl
  have hne1 : c ≠ "帮助" := fun he => by
    rw [he] at hslash; exact absurd hslash (by decide)
  have hne2 : c ≠ "状态" := fun he => by
    rw [he] at hslash; exact absurd hslash (by decide)
  have hne3 : c ≠ "插件" := fun he => by
    rw [he] at hslash; exact absurd hslash (by decide)
  have hne4 : c ≠ "重载" := fun he => by
    rw [he] at hslash; exact absurd hslash (by decide)
  have hnl1 : pyLower c ≠ "help" := fun he => by
    rw [he] at hlowslash; exact absurd hlowslash (by decide)
  have hnl2 : pyLower c ≠ "status" := fun he => by
    rw [he] at hlowslash; exact absurd hlowslash (by decide)
  have hnl3 : pyLower c ≠ "plugins" := fun he => by
    rw [he] at hlowslash; exact absurd hlowslash (by decide)
  have hnl4 : pyLower c ≠ "reload" := fun he => by
    rw [he] at hlowslash; exact absurd hlowslash (by decide)
  refine ⟨?_, ?_, ?_, ?_⟩ <;>
    simp [matchHelpPat, matchStatusPat, matchPluginsPat, matchReloadPat,
      hne1, hne2, hne3, hne4, hnl1, hnl2, hnl3, hnl4]

theorem handle_help_ne_empty : handle_help ≠ "" :=
  pyStrip_ne_empty help_text_raw '🤖' (by decide) (by decide)

theorem handle_status_ne_empty (st : MHState) : handle_status st ≠ "" := by
  cases hpm : st.pm with
  | none => simp only [handle_status, hpm]; decide
  | some pmst =>
      simp only [handle_status, hpm]
      apply pyStrip_ne_empty _ '🤖'
      · repeat apply mem_data_append_left
        decide
      · decide

theorem handle_plugins_ne_empty (st : MHState) :
    handle_plugins st ≠ "" := by
  cases hpm : st.pm with
  | none => simp only [handle_plugins, hpm]; decide
  | some pmst =>
      simp only [handle_plugins, hpm]
      apply pyStrip_ne_empty _ '📦'
      · apply mem_data_append_left
        decide
      · decide

theorem handle_reload_ne_empty (env : String → LoadOutcome)
    (st : MHState) : (handle_reload env st).1 ≠ "" := by
  cases hpm : st.pm with
  | none => simp only [handle_reload, hpm]; decide
  | some pmst => simp only [handle_reload, hpm]; decide

/-- Reduction of `_handle_plugin_command` on `/`-prefixed content, given
the parse of the text after the prefix. -/
theorem handle_plugin_command_eq (st : MHState) (content user : String)
    (pmst : PMState) (rest nm : List Char) (argO : Option (List Char))
    (hpm : st.pm = some pmst) (hdata : content.data = '/' :: rest)
    (hsplit : splitSpace1 rest = (nm, argO)) :
    handle_plugin_command st content user =
      (match get_plugin pmst (String.mk nm) with
       | some p =>
           match p.exec (argString argO) user with
           | .ok r => r
           | .error _ => none
       | none =>
           some ("插件 \x27" ++ String.mk nm ++ "\x27 不存在或未加载。")) := by
  unfold handle_plugin_command
  rw [hdata]
  dsimp only
  rw [if_pos rfl, hsplit, hpm]

/-! ## C1 — the router always replies, and catches plugin faults -/

/-- C1: `handle_text_message` always returns a non-empty reply string,
for every inbound text message, registry state and plugin behaviour;
and, in particular, when the addressed plugin is loaded and its
`execute_command` raises, the exception is caught (inside
`_handle_plugin_command`) and the reply is one of the default
responses — nothing propagates to the transport layer (the function is
total). -/
theorem router_reply_nonempty_and_catches :
    (∀ (env : String → LoadOutcome) (st : MHState) (msg : Msg)
      (rand : Nat), (handle_text_message env st msg rand).1 ≠ "") ∧
    (∀ (env : String → LoadOutcome) (st : MHState) (msg : Msg)
      (rand : Nat) (pmst : PMState) (rest nm : List Char)
      (argO : Option (List Char)) (p : Plugin),
      st.pm = some pmst →
      (pyStrip msg.text).data = '/' :: rest →
      splitSpace1 rest = (nm, argO) →
      get_plugin pmst (String.mk nm) = some p →
      p.exec (argString argO) msg.fromUser = .error () →
      (handle_text_message env st msg rand).1 ∈ default_responses) := by
  constructor
  · intro env st msg rand
    simp only [handle_text_message]
    by_cases h1 : matchHelpPat (pyStrip msg.text) = true
    · rw [if_pos h1]; exact handle_help_ne_empty
    · rw [if_neg h1]
      by_cases h2 : matchStatusPat (pyStrip msg.text) = true
      · rw [if_pos h2]; exact handle_status_ne_empty st
      · rw [if_neg h2]
        by_cases h3 : matchPluginsPat (pyStrip msg.text) = true
        · rw [if_pos h3]; exact handle_plugins_ne_empty st
        · rw [if_neg h3]
          by_cases h4 : matchReloadPat (pyStrip msg.text) = true
          · rw [if_pos h4]; exact handle_reload_ne_empty env st
          · rw [if_neg h4]
            by_cases h5 : truthyOpt (handle_plugin_command st
                (pyStrip msg.text) msg.fromUser) = true
            · rw [if_pos h5]
              cases hpr : handle_plugin_command st (pyStrip msg.text)
                  msg.fromUser with
              | none => rw [hpr] at h5; exact absurd h5 (by decide)
              | some s =>
                  rw [hpr] at h5
                  simp only [Option.getD_some]
                  simpa [truthyOpt] using h5
            · rw [if_neg h5]
              exact get_default_response_ne_empty rand
  · intro env st msg rand pmst rest nm argO p hpm hdata hsplit hget hexec
    obtain ⟨hm1, hm2, hm3, hm4⟩ :=
      matchPats_false_of_slash (pyStrip msg.text) rest hdata
    simp only [handle_text_message]
    rw [if_neg (by simp [hm1]), if_neg (by simp [hm2]),
        if_neg (by simp [hm3]), if_neg (by simp [hm4])]
    have hpc : handle_plugin_command st (pyStrip msg.text) msg.fromUser =
        none := by
      rw [handle_plugin_command_eq st (pyStrip msg.text) msg.fromUser
        pmst rest nm argO hpm hdata hsplit, hget]
      dsimp only
      rw [hexec]
    rw [hpc, if_neg (by decide)]
    exact get_default_response_mem rand

/-- A plugin whose `execute_command` raises. -/
def pluginRaise : Plugin :=
  { name := "boom", version := "1.0.0", description := "d",
    is_running := true, startOk := true, stopOk := true,
    exec := fun _ _ => .error () }

/-- A router context with `pluginRaise` loaded under `"boom"`. -/
def stRaise : MHState :=
  { cfg := [],
    pm := some { plugins := [("boom", pluginRaise)],
                 plugin_modules := [("boom", "boom")] } }

/-- Witness for C1 at a concrete input: the message `/boom do` addressed
to the raising plugin yields a non-empty reply that is one of the
default responses. -/
theorem router_reply_nonempty_and_catches_witness :
    (handle_text_message (fun _ => LoadOutcome.noFile) stRaise
      ⟨"u1", "/boom do"⟩ 0).1 ≠ "" ∧
    (handle_text_message (fun _ => LoadOutcome.noFile) stRaise
      ⟨"u1", "/boom do"⟩ 0).1 ∈ default_responses :=
  ⟨router_reply_nonempty_and_catches.1 (fun _ => LoadOutcome.noFile)
    stRaise ⟨"u1", "/boom do"⟩ 0,
   router_reply_nonempty_and_catches.2 (fun _ => LoadOutcome.noFile)
    stRaise ⟨"u1", "/boom do"⟩ 0
    { plugins := [("boom", pluginRaise)],
      plugin_modules := [("boom", "boom")] }
    ['b', 'o', 'o', 'm', ' ', 'd', 'o'] ['b', 'o', 'o', 'm']
    (some ['d', 'o']) pluginRaise rfl rfl rfl rfl rfl⟩

/-! ## C2 — dispatch to an absent plugin -/

/-- C2: dispatching a `/`-prefixed command whose plugin name is absent
from the registry yields exactly the user-facing not-found string, which
is non-empty; the dispatch path is total (the lookup miss is handled by
returning the string, not by raising). -/
theorem dispatch_absent_plugin_not_found
    (env : String → LoadOutcome) (st : MHState) (msg : Msg) (rand : Nat)
    (pmst : PMState) (rest nm : List Char) (argO : Option (List Char))
    (hpm : st.pm = some pmst)
    (hdata : (pyStrip msg.text).data = '/' :: rest)
    (hsplit : splitSpace1 rest = (nm, argO))
    (hget : get_plugin pmst (String.mk nm) = none) :
    (handle_text_message env st msg rand).1 =
      "插件 \x27" ++ String.mk nm ++ "\x27 不存在或未加载。" ∧
    (handle_text_message env st msg rand).1 ≠ "" := by
  obtain ⟨hm1, hm2, hm3, hm4⟩ :=
    matchPats_false_of_slash (pyStrip msg.text) rest hdata
  have hpc : handle_plugin_command st (pyStrip msg.text) msg.fromUser =
      some ("插件 \x27" ++ String.mk nm ++ "\x27 不存在或未加载。") := by
    rw [handle_plugin_command_eq st (pyStrip msg.text) msg.fromUser
      pmst rest nm argO hpm hdata hsplit, hget]
  have hne : ("插件 \x27" ++ String.mk nm ++ "\x27 不存在或未加载。" :
      String) ≠ "" :=
    ne_empty_of_mem_data _ '插'
      (mem_data_append_left _ _ _ (mem_data_append_left _ _ _ (by decide)))
  have hmain : (handle_text_message env st msg rand).1 =
      "插件 \x27" ++ String.mk nm ++ "\x27 不存在或未加载。" := by
    simp only [handle_text_message]
    rw [if_neg (by simp [hm1]), if_neg (by simp [hm2]),
        if_neg (by simp [hm3]), if_neg (by simp [hm4]), hpc,
        if_pos (by simp [truthyOpt, hne])]
    rfl
  exact ⟨hmain, by rw [hmain]; exact hne⟩

/-- A router context whose registry is loaded but empty. -/
def stEmptyReg : MHState :=
  { cfg := [], pm := some { plugins := [], plugin_modules := [] } }

/-- Witness for C2 at a concrete input: `/ghost hi` with no plugin
`"ghost"` loaded yields the concrete not-found string. -/
theorem dispatch_absent_plugin_not_found_witness :
    (handle_text_message (fun _ => LoadOutcome.noFile) stEmptyReg
      ⟨"u1", "/ghost hi"⟩ 0).1 =
      "插件 \x27" ++ String.mk ['g', 'h', 'o', 's', 't'] ++
        "\x27 不存在或未加载。" ∧
    (handle_text_message (fun _ => LoadOutcome.noFile) stEmptyReg
      ⟨"u1", "/ghost hi"⟩ 0).1 ≠ "" :=
  dispatch_absent_plugin_not_found (fun _ => LoadOutcome.noFile)
    stEmptyReg ⟨"u1", "/ghost hi"⟩ 0
    { plugins := [], plugin_modules := [] }
    ['g', 'h', 'o', 's', 't', ' ', 'h', 'i'] ['g', 'h', 'o', 's', 't']
    (some ['h', 'i']) rfl rfl rfl rfl

/-! ## C10 — falsy plugin replies fall through to the defaults -/

/-- C10: when the addressed plugin is loaded and its `execute_command`
returns a falsy value (`None` or the empty string), the router discards
it — `if plugin_response:` fails — and replies with one of the four
fixed default responses. -/
theorem falsy_plugin_reply_gets_default_response
    (env : String → LoadOutcome) (st : MHState) (msg : Msg) (rand : Nat)
    (pmst : PMState) (rest nm : List Char) (argO : Option (List Char))
    (p : Plugin) (r : Option String)
    (hpm : st.pm = some pmst)
    (hdata : (pyStrip msg.text).data = '/' :: rest)
    (hsplit : splitSpace1 rest = (nm, argO))
    (hget : get_plugin pmst (String.mk nm) = some p)
    (hr : p.exec (argString argO) msg.fromUser = .ok r)
    (hfalsy : r = none ∨ r = some "") :
    (handle_text_message env st msg rand).1 ∈ default_responses := by
  obtain ⟨hm1, hm2, hm3, hm4⟩ :=
    matchPats_false_of_slash (pyStrip msg.text) rest hdata
  have hpc : handle_plugin_command st (pyStrip msg.text) msg.fromUser =
      r := by
    rw [handle_plugin_command_eq st (pyStrip msg.text) msg.fromUser
      pmst rest nm argO hpm hdata hsplit, hget]
    dsimp only
    rw [hr]
  have hfr : truthyOpt r = false := by
    rcases hfalsy with h | h <;> subst h <;> rfl
  simp only [handle_text_message]
  rw [if_neg (by simp [hm1]), if_neg (by simp [hm2]),
      if_neg (by simp [hm3]), if_neg (by simp [hm4]), hpc,
      if_neg (by simp [hfr])]
  exact get_default_response_mem rand

/-- A plugin whose `execute_command` returns the empty string. -/
def pluginEmptyReply : Plugin :=
  { name := "empty", version := "1.0.0", description := "d",
    is_running := true, startOk := true, stopOk := true,
    exec := fun _ _ => .ok (some "") }

/-- A router context with `pluginEmptyReply` loaded under `"empty"`. -/
def stFalsy : MHState :=
  { cfg := [],
    pm := some { plugins := [("empty", pluginEmptyReply)],
                 plugin_modules := [("empty", "m")] } }

/-- Witness for C10 at a concrete input: `/empty` addressed to a plugin
returning `""` yields one of the default responses. -/
theorem falsy_plugin_reply_gets_default_response_witness :
    (handle_text_message (fun _ => LoadOutcome.noFile) stFalsy
      ⟨"u2", "/empty"⟩ 2).1 ∈ default_responses :=
  falsy_plugin_reply_gets_default_response (fun _ => LoadOutcome.noFile)
    stFalsy ⟨"u2", "/empty"⟩ 2
    { plugins := [("empty", pluginEmptyReply)],
      plugin_modules := [("empty", "m")] }
    ['e', 'm', 'p', 't', 'y'] ['e', 'm', 'p', 't', 'y'] none
    pluginEmptyReply (some "") rfl rfl rfl rfl rfl (Or.inr rfl)

end WeChatTool
